import Mathlib

/-!
# Verification of the mex-artificial synthetic-record engine

Shallow Lean embedding of the generator in `mex/artificial` (provider.py,
helpers.py, constants.py).  The single seeded random source (one `Faker`
instance per session, `Faker.seed(seed)` in `create_faker`) is modelled as a
tape of naturals consumed strictly sequentially; `random.randint`-style draws
are modelled as `lo + tape value % range size`.  External collaborators
(the pydantic schema registry of mex-common, the identity service, the `re`
regex engine and the locale word corpora) are parameters of the session,
exactly as the spec declares them out of scope.
-/

namespace MexArtificial

/-- Stable identifiers (`Identifier` / `AnyMergedIdentifier` in mex-common)
are modelled as naturals. -/
abbrev Ident := Nat

/-- Entity stem types ("Person", "PrimarySource", ...). -/
abbrev StemType := String

/-- The seeded random tape: all randomness of a session, in consumption
order.  Mirrors the single `Faker` source seeded in `create_faker`. -/
abbrev Tape := Nat → Nat

/-- A position on the random tape; the pair models the mutable state of the
session's random generator. -/
structure Rng where
  tape : Tape
  pos : Nat

/-- Consume one raw value from the random source. -/
def Rng.next (g : Rng) : Nat × Rng :=
  (g.tape g.pos, { g with pos := g.pos + 1 })

/-- `faker.pyint(lo, hi)` / `faker.random_int(lo, hi)`: a uniform draw from
the inclusive range `[lo, hi]`, modelled by reducing one tape value modulo
the range size. -/
def pyint (g : Rng) (lo hi : Nat) : Nat × Rng :=
  let (n, g') := g.next
  (lo + n % (hi + 1 - lo), g')

/-- `faker.random_element(seq)` on a plain sequence: uniform pick, `none` on
an empty sequence (where faker would raise `IndexError`). -/
def random_element {α : Type} (g : Rng) (l : List α) : Option α × Rng :=
  let (n, g') := g.next
  (l.get? (n % l.length), g')

/-- The key tuple of the `OrderedDict({1: 0.42, 2: 0.28, 3: 0.16, 4: 0.08,
5: 0.04, 10: 0.02})` that `min_max_for_field` passes to `random_element`. -/
def max_items_choices : List Nat := [1, 2, 3, 4, 5, 10]

/-- The max-items value the key tuple yields for one raw tape value. -/
def max_items_draw (n : Nat) : Nat :=
  (max_items_choices.get? (n % max_items_choices.length)).getD 0

/-- `random_element(OrderedDict({1: 0.42, ...}))` as the program actually
executes it.  `BuilderProvider` is registered through `add_provider`
(`create_faker`), which leaves faker's `__use_weighting__` at its `False`
default (only the built-in providers instantiated by `Factory.create` get
it set), so `random_elements` passes no probabilities along and the draw is
UNIFORM over the six keys — the OrderedDict values are inert.  (Were
weighting active, `random_element` on the `None`-valued registry
`OrderedDict` in `extracted_item` would raise a `TypeError` on the first
entity, so the working generator itself proves the weights unused.) -/
def random_element_max_items (g : Rng) : Nat × Rng :=
  let (n, g') := g.next
  (max_items_draw n, g')

/-- The slice of a pydantic `FieldInfo` that `min_max_for_field` inspects:
whether the annotation is a `list`, the first `MinLen` / `MaxLen` metadata
entries, and `field.is_required()`. -/
structure FieldInfo where
  isList : Bool
  minLen : Option Nat
  maxLen : Option Nat
  isRequired : Bool
deriving DecidableEq, Repr

/-- `BuilderProvider.min_max_for_field`: item-count bounds for a field.
List fields: min starts at 0, max is the weighted draw; a declared `MinLen`
sets min and raises max by the same amount; a declared `MaxLen` overwrites
max.  Scalar fields: min is 1 when required else 0, max is 1. -/
def min_max_for_field (g : Rng) (f : FieldInfo) : (Nat × Nat) × Rng :=
  if f.isList then
    let (max_items0, g') := random_element_max_items g
    let min_items := match f.minLen with
      | some m => m
      | none => 0
    let max_items1 := match f.minLen with
      | some m => max_items0 + m
      | none => max_items0
    let max_items := match f.maxLen with
      | some m => m
      | none => max_items1
    ((min_items, max_items), g')
  else
    ((if f.isRequired then 1 else 0, 1), g)

/-- A synthesized field value.  `ref` values come from the reference
provider only; `temporal` carries the drawn epoch second and the index of
the drawn precision level; `text` carries the drawn word indices; `other`
stands for the remaining synthesizers (link, enum, plain string, integer)
whose concrete shape no claim constrains. -/
inductive Value where
  | ref (i : Ident)
  | temporal (ts : Nat) (prec : Nat)
  | text (ws : List Nat)
  | other (n : Nat)
deriving DecidableEq, Repr

/-- The `IdsByType` registry, `defaultdict(OrderedDict)` keyed by stem type
holding the stable target ids known so far, in insertion order. -/
abbrev Registry := List (StemType × List Ident)

/-- `ids_by_type[stem_type]`: reading a missing key of the defaultdict
yields an empty collection. -/
def regLookup : Registry → StemType → List Ident
  | [], _ => []
  | (s, ids) :: rest, st => if s = st then ids else regLookup rest st

/-- `ids_by_type[stem_type][identifier] = None`: register an id under a stem
type; re-inserting an existing key of an `OrderedDict` keeps its position,
so the id list stays duplicate-free. -/
def registerId : Registry → StemType → Ident → Registry
  | [], st, i => [(st, [i])]
  | (s, ids) :: rest, st, i =>
    if s = st then (s, if i ∈ ids then ids else ids ++ [i]) :: rest
    else (s, ids) :: registerId rest st i

/-- Python-level exceptions that can escape the generator: pydantic's
`ValidationError` (the only one caught by the retry logic), `TypeError`
(subscripting a non-mapping) and `IndexError` (`random.choice` on an empty
sequence). -/
inductive GenError where
  | validationError
  | typeError
  | indexError
deriving DecidableEq, Repr

/-- A positional Python argument as it travels untyped through the
`faker.standalone_rule_set(stem_types, ids_by_type, index)` call in
`generate_artificial_items_and_rule_sets`: either the `IdsByType` mapping or
the running integer index. -/
inductive PyArg where
  | int (n : Nat)
  | mapping (r : Registry)

/-- Python `str()` of such an argument, as interpolated into
`f"artificial-rule-set-{identifier_seed}"`.  The mapping rendering
abbreviates the `repr` of a `defaultdict` of `OrderedDict`s; only the facts
that it is deterministic in the registry and is never a decimal numeral
matter to any claim. -/
def pyStr : PyArg → String
  | .int n => toString n
  | .mapping r =>
    "defaultdict(OrderedDict, " ++
      String.intercalate ", " (r.map (fun e => e.1 ++ ": " ++ toString e.2))
      ++ ")"

/-- The well-known root primary source stable target id,
`MEX_PRIMARY_SOURCE_STABLE_TARGET_ID`. -/
def mexPrimarySourceId : Ident := 0

/-- The concrete semantic type `get_random_field_info` resolves a field
annotation arm to, driving `field_value_factory` dispatch.  `reference`
carries the stem types decoded from the identifier type's name by
`re.findall(r"Merged([A-Za-z]+)Identifier", ...)`; `temporal` carries the
length of the type's `ALLOWED_PRECISION_LEVELS`; `other` collapses the
link / enum / plain string / integer strategies, each of which consumes one
draw and whose output no claim constrains. -/
inductive FieldKind where
  | reference (targets : List StemType)
  | temporal (precCount : Nat)
  | text
  | other
deriving DecidableEq, Repr

/-- A schema field as the builder sees it: cardinality data plus the
candidate resolved arms (one entry per non-`None` member of a union
annotation; a singleton for a plain annotation). -/
structure FieldSpec where
  info : FieldInfo
  kinds : List FieldKind
deriving DecidableEq, Repr

/-- A model class from the mex-common registry: its stem type and its
dynamically populated fields (everything except the provenance fields set
manually by `extracted_item`). -/
structure ModelClass where
  stemType : StemType
  fields : List (String × FieldSpec)

/-- One populated field of a synthesized record: name, the resolved arm and
the value list `field_value` returned for it. -/
structure FieldEntry where
  name : String
  kind : FieldKind
  values : List Value
deriving DecidableEq, Repr

/-- A synthesized extracted item (`AnyExtractedModel`): the manually set
provenance fields, the stable target id assigned by the identity service
during validation, and the dynamically populated fields. -/
structure ExtractedRecord where
  stemType : StemType
  hadPrimarySource : Ident
  identifierInPrimarySource : String
  stableTargetId : Ident
  fields : List FieldEntry
deriving DecidableEq, Repr

/-- An additive rule fragment: the populated rule-eligible fields. -/
abbrev AdditiveRule := List FieldEntry

/-- A rule-set response (`AnyRuleSetResponse`).  The subtractive and
preventive fragments are modelled opaquely (each consumes one draw when
selected); no claim constrains their contents. -/
structure RuleSetRecord where
  stemType : StemType
  stableTargetId : Ident
  additive : Option AdditiveRule
  subtractive : Option Nat
  preventive : Option Nat
deriving DecidableEq, Repr

/-- All session-level inputs of a generation run: the schema registry
(extracted and additive model classes, and the validation verdicts, all
owned by mex-common), the deterministic identity service `assign`, the
locale word corpora, the `chattiness` setting and the wall-clock `now`
timestamp read by `TemporalEntityProvider.temporal_entity`. -/
structure SessionParams where
  classes : StemType → ModelClass
  additiveClasses : StemType → ModelClass
  valid : ExtractedRecord → Bool
  ruleSetValid : RuleSetRecord → Bool
  assign : Ident → String → Ident
  localeWord : Nat → Nat
  chattiness : Nat
  now : Nat

/-- `ReferenceProvider.reference`: collect the ids known for the stem types
decoded from the identifier type's name and pick one uniformly; with no
candidates the comprehension is empty and the provider returns `None`.
When the untyped `ids_by_type` argument is actually an integer (the swapped
call in the driver's action 1), the first subscript `ids_by_type[stem_type]`
raises `TypeError`; with no decoded stem type no subscript happens and the
provider still returns `None`. -/
def reference (targets : List StemType) (ids_by_type : PyArg) (g : Rng) :
    Except GenError (Option Value) × Rng :=
  match ids_by_type with
  | .int _ =>
    if targets.isEmpty then (.ok none, g) else (.error .typeError, g)
  | .mapping r =>
    let choices := (targets.map (regLookup r)).flatten
    if choices.isEmpty then (.ok none, g)
    else
      let (v?, g') := random_element g choices
      (.ok (v?.map Value.ref), g')

/-- `TemporalEntityProvider.temporal_entity`: a random epoch second between
the fixed floor `int(8e8)` and `int(datetime.now(tz=UTC).timestamp())`,
then a uniform pick among the type's allowed precision levels. -/
def temporal_entity (now : Nat) (precCount : Nat) (g : Rng) :
    Except GenError (Option Value) × Rng :=
  let (ts, g') := pyint g 800000000 now
  let (p, g'') := g'.next
  (.ok (some (Value.temporal ts (p % precCount))), g'')

/-- `faker.word()` repeated: draw `n` words from the locale corpora. -/
def drawWords (localeWord : Nat → Nat) : Nat → Rng → List Nat × Rng
  | 0, g => ([], g)
  | k + 1, g =>
    let (w, g') := g.next
    let (ws, g'') := drawWords localeWord k g'
    (localeWord w :: ws, g'')

/-- `TextProvider.text_string`: between 1 and `max(chattiness / 5, 3)` words
drawn from the locale corpora. -/
def text_string (localeWord : Nat → Nat) (chattiness : Nat) (g : Rng) :
    Except GenError (Option Value) × Rng :=
  let (n, g') := pyint g 1 (max (chattiness / 5) 3)
  let (ws, g'') := drawWords localeWord n g'
  (.ok (some (Value.text ws)), g'')

/-- The collapsed link / enum / plain string / integer synthesizers: one
draw, a value no claim constrains. -/
def otherValue (g : Rng) : Except GenError (Option Value) × Rng :=
  let (n, g') := g.next
  (.ok (some (Value.other n)), g')

/-- `BuilderProvider.field_value_factory`: dispatch on the resolved arm. -/
def field_value_factory (p : SessionParams) (kind : FieldKind)
    (ids_by_type : PyArg) : Rng → Except GenError (Option Value) × Rng :=
  match kind with
  | .reference targets => reference targets ids_by_type
  | .temporal precCount => temporal_entity p.now precCount
  | .text => text_string p.localeWord p.chattiness
  | .other => otherValue

/-- `BuilderProvider.get_random_field_info`: a plain annotation resolves
directly; a union annotation picks one non-`None` arm uniformly at random. -/
def get_random_field_info (g : Rng) (s : FieldSpec) : FieldKind × Rng :=
  match s.kinds with
  | [k] => (k, g)
  | ks =>
    let (k?, g') := random_element g ks
    (k?.getD .other, g')

/-- The list comprehension in `field_value`: call the factory `n` times,
keep the non-`None` results in order; a raised exception aborts the
comprehension. -/
def collectValues (factory : Rng → Except GenError (Option Value) × Rng) :
    Nat → Rng → Except GenError (List Value) × Rng
  | 0, g => (.ok [], g)
  | n + 1, g =>
    match factory g with
    | (.error e, g') => (.error e, g')
    | (.ok v?, g') =>
      match collectValues factory n g' with
      | (.error e, g'') => (.error e, g'')
      | (.ok vs, g'') =>
        (.ok (match v? with
          | some v => v :: vs
          | none => vs), g'')

/-- `BuilderProvider.field_value`: resolve the field info, draw the call
count uniformly from the resolved `[min, max]` range, collect the
non-`None` factory results and collapse duplicates (`list(set(values))`,
modelled as `List.dedup`).  Returns the resolved arm alongside the values so
records can report which synthesizer produced them. -/
def field_value (p : SessionParams) (s : FieldSpec) (ids_by_type : PyArg)
    (g : Rng) : Except GenError (FieldKind × List Value) × Rng :=
  let (kind, g1) := get_random_field_info g s
  let ((lo, hi), g2) := min_max_for_field g1 s.info
  let (n, g3) := pyint g2 lo hi
  match collectValues (field_value_factory p kind ids_by_type) n g3 with
  | (.error e, g4) => (.error e, g4)
  | (.ok vs, g4) => (.ok (kind, vs.dedup), g4)

/-- The field loop of `extracted_item` / `additive_rule`: populate each
dynamically handled field in declaration order. -/
def populateFields (p : SessionParams) (ids_by_type : PyArg) :
    List (String × FieldSpec) → Rng → Except GenError (List FieldEntry) × Rng
  | [], g => (.ok [], g)
  | (nm, s) :: rest, g =>
    match field_value p s ids_by_type g with
    | (.error e, g') => (.error e, g')
    | (.ok (kind, vs), g') =>
      match populateFields p ids_by_type rest g' with
      | (.error e, g'') => (.error e, g'')
      | (.ok entries, g'') => (.ok (⟨nm, kind, vs⟩ :: entries), g'')

/-- The default of the `_attempts_left` keyword of `extracted_item`,
`standalone_rule_set` and `rule_set_for_item` (also
`DEFAULT_GENERATION_ATTEMPTS` in constants.py). -/
def default_generation_attempts : Nat := 10

/-- The `try / except ValidationError` recursion shared by `extracted_item`,
`standalone_rule_set` and `rule_set_for_item`: run one attempt; a
`ValidationError` with attempts left triggers a fresh attempt on the
advanced random state, a `ValidationError` with no attempts left is
re-raised, and any other exception propagates immediately. -/
def retryLoop {α : Type} (attempt : Rng → Except GenError α × Rng) :
    Nat → Rng → Except GenError α × Rng
  | 0, g =>
    match attempt g with
    | (.ok a, g') => (.ok a, g')
    | (.error e, g') => (.error e, g')
  | fuel + 1, g =>
    match attempt g with
    | (.ok a, g') => (.ok a, g')
    | (.error .validationError, g') => retryLoop attempt fuel g'
    | (.error e, g') => (.error e, g')

/-- One synthesis attempt of `BuilderProvider.extracted_item`: pick a stem
type, pick a known primary-source id, derive the local identifier from the
per-type count of known ids, populate all remaining fields, then validate
(the identity service assigns the stable target id during validation). -/
def extracted_item_attempt (p : SessionParams) (stem_types : List StemType)
    (ids_by_type : PyArg) (g : Rng) : Except GenError ExtractedRecord × Rng :=
  let (stem?, g1) := random_element g stem_types
  match stem? with
  | none => (.error .indexError, g1)
  | some stem =>
    let mc := p.classes stem
    match ids_by_type with
    | .int _ => (.error .typeError, g1)
    | .mapping reg =>
      let pool := regLookup reg "PrimarySource"
      let (hps?, g2) := random_element g1 pool
      match hps? with
      | none => (.error .indexError, g2)
      | some hps =>
        let index := (regLookup reg mc.stemType).length
        let iips := mc.stemType ++ "_" ++ toString index
        match populateFields p ids_by_type mc.fields g2 with
        | (.error e, g3) => (.error e, g3)
        | (.ok entries, g3) =>
          let item : ExtractedRecord :=
            { stemType := mc.stemType, hadPrimarySource := hps,
              identifierInPrimarySource := iips,
              stableTargetId := p.assign hps iips, fields := entries }
          if p.valid item then (.ok item, g3)
          else (.error .validationError, g3)

/-- `BuilderProvider.extracted_item`: one attempt under the bounded retry
recursion. -/
def extracted_item (p : SessionParams) (stem_types : List StemType)
    (ids_by_type : PyArg) (attempts_left : Nat) (g : Rng) :
    Except GenError ExtractedRecord × Rng :=
  retryLoop (extracted_item_attempt p stem_types ids_by_type) attempts_left g

/-- `BuilderProvider.additive_rule`: populate the rule-eligible (non-literal)
fields of the stem type's additive class with the ordinary field-value
machinery.  The additive class's own `model_validate` is modelled as always
succeeding: additive models declare no required fields. -/
def additive_rule (p : SessionParams) (stem : StemType) (ids_by_type : PyArg)
    (g : Rng) : Except GenError AdditiveRule × Rng :=
  populateFields p ids_by_type (p.additiveClasses stem).fields g

/-- One attempt of `BuilderProvider.standalone_rule_set`: pick a stem type,
mint an identity from the seed string
`f"artificial-rule-set-{identifier_seed}"` (whatever Python value the
untyped `identifier_seed` argument carries), populate only the additive
fragment, then validate. -/
def standalone_rule_set_attempt (p : SessionParams)
    (stem_types : List StemType) (identifier_seed ids_by_type : PyArg)
    (g : Rng) : Except GenError RuleSetRecord × Rng :=
  let (stem?, g1) := random_element g stem_types
  match stem? with
  | none => (.error .indexError, g1)
  | some stem =>
    let identity := p.assign mexPrimarySourceId
      ("artificial-rule-set-" ++ pyStr identifier_seed)
    match additive_rule p stem ids_by_type g1 with
    | (.error e, g2) => (.error e, g2)
    | (.ok add, g2) =>
      let rs : RuleSetRecord :=
        { stemType := stem, stableTargetId := identity,
          additive := some add, subtractive := none, preventive := none }
      if p.ruleSetValid rs then (.ok rs, g2)
      else (.error .validationError, g2)

/-- `BuilderProvider.standalone_rule_set`: one attempt under the bounded
retry recursion (retries re-use the same `identifier_seed` argument). -/
def standalone_rule_set (p : SessionParams) (stem_types : List StemType)
    (identifier_seed ids_by_type : PyArg) (attempts_left : Nat) (g : Rng) :
    Except GenError RuleSetRecord × Rng :=
  retryLoop
    (standalone_rule_set_attempt p stem_types identifier_seed ids_by_type)
    attempts_left g

/-- One attempt of `BuilderProvider.rule_set_for_item`: keyed by the item's
stable target id; `random_sample` picks a subset of the three rule
factories (modelled as one draw decoded bitwise), the selected fragments
are populated, then the assembled rule set is validated.  The subtractive
and preventive fragments, unconstrained by any claim, are modelled as one
opaque draw each. -/
def rule_set_for_item_attempt (p : SessionParams) (item : ExtractedRecord)
    (ids_by_type : PyArg) (g : Rng) : Except GenError RuleSetRecord × Rng :=
  let (sel, g1) := g.next
  match (if sel % 2 = 1 then
      match additive_rule p item.stemType ids_by_type g1 with
      | (.error e, h) => (.error e, h)
      | (.ok a, h) => (.ok (some a), h)
    else ((.ok none : Except GenError (Option AdditiveRule)), g1)) with
  | (.error e, g2) => (.error e, g2)
  | (.ok add, g2) =>
    let (sub, g3) :=
      if sel / 2 % 2 = 1 then
        let (x, h) := g2.next
        (some x, h)
      else (none, g2)
    let (prev, g4) :=
      if sel / 4 % 2 = 1 then
        let (x, h) := g3.next
        (some x, h)
      else (none, g3)
    let rs : RuleSetRecord :=
      { stemType := item.stemType, stableTargetId := item.stableTargetId,
        additive := add, subtractive := sub, preventive := prev }
    if p.ruleSetValid rs then (.ok rs, g4)
    else (.error .validationError, g4)

/-- `BuilderProvider.rule_set_for_item` under the bounded retry recursion. -/
def rule_set_for_item (p : SessionParams) (item : ExtractedRecord)
    (ids_by_type : PyArg) (attempts_left : Nat) (g : Rng) :
    Except GenError RuleSetRecord × Rng :=
  retryLoop (rule_set_for_item_attempt p item ids_by_type) attempts_left g

/-- `MEX_PRIMARY_SOURCE` (constants.py): the well-known root primary-source
entity, built with `model_construct` — that is, WITHOUT validation. -/
def mexPrimarySource : ExtractedRecord :=
  { stemType := "PrimarySource", hadPrimarySource := mexPrimarySourceId,
    identifierInPrimarySource := "mex",
    stableTargetId := mexPrimarySourceId, fields := [] }

/-- The initial `ids_by_type` of both streams: the root's stable target id
pre-registered under its stem type. -/
def initialRegistry : Registry := [("PrimarySource", [mexPrimarySourceId])]

/-- The mutable state of a `generate_artificial_extracted_items` session:
the id registry and the random source. -/
structure GenState where
  reg : Registry
  rng : Rng

/-- One loop iteration of `generate_artificial_extracted_items`: synthesize
an item, register its stable target id, then yield it. -/
def extracted_items_step (p : SessionParams) (stem_types : List StemType)
    (s : GenState) : Except GenError (ExtractedRecord × GenState) :=
  match extracted_item p stem_types (.mapping s.reg)
      default_generation_attempts s.rng with
  | (.ok item, g) =>
    .ok (item, ⟨registerId s.reg item.stemType item.stableTargetId, g⟩)
  | (.error e, _) => .error e

/-- `generate_artificial_extracted_items` as a trace: the elements yielded
after the root plus `n` loop iterations, with the session state, or the
first uncaught exception. -/
def generate_artificial_extracted_items (p : SessionParams)
    (stem_types : List StemType) (t : Tape) :
    Nat → Except GenError (List ExtractedRecord × GenState)
  | 0 => .ok ([mexPrimarySource], ⟨initialRegistry, ⟨t, 0⟩⟩)
  | n + 1 =>
    match generate_artificial_extracted_items p stem_types t n with
    | .error e => .error e
    | .ok (items, s) =>
      match extracted_items_step p stem_types s with
      | .ok (item, s') => .ok (items ++ [item], s')
      | .error e => .error e

/-- `ExtractedItemAndRuleSet` (models.py): one yielded pair, either side
optional. -/
structure ExtractedItemAndRuleSet where
  extracted_item : Option ExtractedRecord
  rule_set : Option RuleSetRecord
deriving DecidableEq, Repr

/-- The mutable state of a `generate_artificial_items_and_rule_sets`
session: the registry, the random source and the running loop index of
`for index in count()`. -/
structure DriverState where
  reg : Registry
  rng : Rng
  index : Nat

/-- One loop iteration of `generate_artificial_items_and_rule_sets`: draw
`faker.random_int(0, 2)` and dispatch.  Action 0 synthesizes an item and
registers it; action 1 calls
`faker.standalone_rule_set(stem_types, ids_by_type, index)` — reproduced
here with the call site's positional order, so the registry lands in the
provider's `identifier_seed` parameter and the integer index in its
`ids_by_type` parameter — and registers the rule set; action 2 synthesizes
an item plus a paired rule set and registers nothing. -/
def driver_step (p : SessionParams) (stem_types : List StemType)
    (s : DriverState) : Except GenError (ExtractedItemAndRuleSet × DriverState) :=
  let (a, g) := pyint s.rng 0 2
  match a with
  | 0 =>
    match extracted_item p stem_types (.mapping s.reg)
        default_generation_attempts g with
    | (.error e, _) => .error e
    | (.ok item, g') =>
      .ok (⟨some item, none⟩,
        ⟨registerId s.reg item.stemType item.stableTargetId, g', s.index + 1⟩)
  | 1 =>
    match standalone_rule_set p stem_types (.mapping s.reg) (.int s.index)
        default_generation_attempts g with
    | (.error e, _) => .error e
    | (.ok rs, g') =>
      .ok (⟨none, some rs⟩,
        ⟨registerId s.reg rs.stemType rs.stableTargetId, g', s.index + 1⟩)
  | _ =>
    match extracted_item p stem_types (.mapping s.reg)
        default_generation_attempts g with
    | (.error e, _) => .error e
    | (.ok item, g') =>
      match rule_set_for_item p item (.mapping s.reg)
          default_generation_attempts g' with
      | (.error e, _) => .error e
      | (.ok rs, g'') =>
        .ok (⟨some item, some rs⟩, ⟨s.reg, g'', s.index + 1⟩)

/-- `generate_artificial_items_and_rule_sets` as a trace: the root element
plus `n` driver iterations. -/
def generate_artificial_items_and_rule_sets (p : SessionParams)
    (stem_types : List StemType) (t : Tape) :
    Nat → Except GenError (List ExtractedItemAndRuleSet × DriverState)
  | 0 => .ok ([⟨some mexPrimarySource, none⟩], ⟨initialRegistry, ⟨t, 0⟩, 0⟩)
  | n + 1 =>
    match generate_artificial_items_and_rule_sets p stem_types t n with
    | .error e => .error e
    | .ok (els, s) =>
      match driver_step p stem_types s with
      | .ok (el, s') => .ok (els ++ [el], s')
      | .error e => .error e

/-- `faker.numerify`: substitute each digit wildcard marker with a random
digit.  The patterns this provider receives are derived by
`get_random_field_info` from example strings containing no other special
formatting character, so only the digit marker occurs in them. -/
def numerify (g : Rng) (pattern : String) : String × Rng :=
  pattern.toList.foldl
    (fun acc c =>
      if c = '#' then
        let (d, g') := pyint acc.2 0 9
        (acc.1.push (Char.ofNat (48 + d)), g')
      else (acc.1.push c, acc.2))
    ("", g)

/-- One turn of `NumerifyPatternsProvider.numerify_patterns`: pick one
numerify pattern and one regex pattern, numerify the former, and test the
result against the latter with `re.match` (the regex engine being external,
it is the abstract parameter `rmatch`). -/
def numerify_attempt (rmatch : String → String → Bool)
    (nps rps : List String) (g : Rng) : (String × Bool) × Rng :=
  let (np?, g1) := random_element g nps
  let (rp?, g2) := random_element g1 rps
  let (s, g3) := numerify g2 (np?.getD "")
  ((s, rmatch (rp?.getD "") s), g3)

/-- The `for _ in range(10)` loop of `numerify_patterns`, parameterized by
the remaining turn count: return the first numerified string that matches,
or `None` once the turns are exhausted. -/
def numerify_patterns_go (rmatch : String → String → Bool)
    (nps rps : List String) : Nat → Rng → Option String × Rng
  | 0, g => (none, g)
  | n + 1, g =>
    let (a, g') := numerify_attempt rmatch nps rps g
    if a.2 then (some a.1, g') else numerify_patterns_go rmatch nps rps n g'

/-- `NumerifyPatternsProvider.numerify_patterns`: ten turns, then bail out
with `None`. -/
def numerify_patterns (rmatch : String → String → Bool)
    (nps rps : List String) (g : Rng) : Option String × Rng :=
  numerify_patterns_go rmatch nps rps 10 g

/-- The outcomes of the first `n` turns, replayed sequentially from the
same random state (specification device for characterizing the loop). -/
def numerify_attempts (rmatch : String → String → Bool)
    (nps rps : List String) : Nat → Rng → List (String × Bool)
  | 0, _ => []
  | n + 1, g =>
    let (a, g') := numerify_attempt rmatch nps rps g
    a :: numerify_attempts rmatch nps rps n g'

/-- The first successful outcome in a list of turn outcomes. -/
def firstMatchingAttempt : List (String × Bool) → Option String
  | [] => none
  | (s, b) :: rest => if b then some s else firstMatchingAttempt rest

/-- The random-state advance of one synthesis attempt (specification device
for counting attempts of the retry recursion). -/
def attemptAdvance {α : Type} (attempt : Rng → Except GenError α × Rng)
    (g : Rng) : Rng :=
  (attempt g).2

/-- The items yielded by `generate_artificial_extracted_items` after the
root plus `n` iterations (empty if an exception escaped). -/
def extractedItemsList (p : SessionParams) (stem_types : List StemType)
    (t : Tape) (n : Nat) : List ExtractedRecord :=
  match generate_artificial_extracted_items p stem_types t n with
  | .ok (items, _) => items
  | .error _ => []

/-- The registry of a `generate_artificial_extracted_items` session after
the root plus `n` iterations. -/
def extractedItemsRegAt (p : SessionParams) (stem_types : List StemType)
    (t : Tape) (n : Nat) : Registry :=
  match generate_artificial_extracted_items p stem_types t n with
  | .ok (_, s) => s.reg
  | .error _ => []

/-- The elements yielded by `generate_artificial_items_and_rule_sets` after
the root plus `n` iterations (empty if an exception escaped). -/
def driverElementsList (p : SessionParams) (stem_types : List StemType)
    (t : Tape) (n : Nat) : List ExtractedItemAndRuleSet :=
  match generate_artificial_items_and_rule_sets p stem_types t n with
  | .ok (els, _) => els
  | .error _ => []

/-- The registry of a `generate_artificial_items_and_rule_sets` session
after the root plus `n` iterations. -/
def driverRegAt (p : SessionParams) (stem_types : List StemType)
    (t : Tape) (n : Nat) : Registry :=
  match generate_artificial_items_and_rule_sets p stem_types t n with
  | .ok (_, s) => s.reg
  | .error _ => []

/-- The no-forward-reference property: every reference-valued field of the
record resolves to an id present in the given registry under one of the
field's decoded target stem types. -/
def RefsFrom (r : Registry) (item : ExtractedRecord) : Prop :=
  ∀ e ∈ item.fields, ∀ v ∈ e.values, ∀ i, v = Value.ref i →
    ∃ ts, e.kind = FieldKind.reference ts ∧ ∃ st ∈ ts, i ∈ regLookup r st

/-- An optional-scalar field resolved to the opaque synthesizer. -/
def fieldOther : FieldSpec := ⟨⟨false, none, none, false⟩, [.other]⟩

/-- A required-scalar field resolved to the opaque synthesizer. -/
def fieldOtherReq : FieldSpec := ⟨⟨false, none, none, true⟩, [.other]⟩

/-- A required-scalar temporal field with one allowed precision level. -/
def fieldTemporalReq : FieldSpec := ⟨⟨false, none, none, true⟩, [.temporal 1]⟩

/-- A required-scalar reference field targeting primary sources. -/
def fieldRefReq : FieldSpec :=
  ⟨⟨false, none, none, true⟩, [.reference ["PrimarySource"]]⟩

/-- A schema registry with no dynamically populated fields. -/
def emptyClasses : StemType → ModelClass := fun st => ⟨st, []⟩

/-- Baseline concrete session for witnesses: everything validates, the
identity service is a simple deterministic function. -/
def pBase : SessionParams :=
  { classes := emptyClasses, additiveClasses := emptyClasses,
    valid := fun _ => true, ruleSetValid := fun _ => true,
    assign := fun i s => 100 + i + s.length,
    localeWord := id, chattiness := 10, now := 1000000000 }

/-- A session whose schema rejects every synthesized record. -/
def pFail : SessionParams :=
  { pBase with valid := fun _ => false, ruleSetValid := fun _ => false }

/-- A session whose extracted classes carry one reference field. -/
def pRef : SessionParams :=
  { pBase with classes := fun st => ⟨st, [("ref1", fieldRefReq)]⟩ }

/-- A session whose extracted classes carry one temporal field. -/
def pNow1 : SessionParams :=
  { pBase with classes := fun st => ⟨st, [("start", fieldTemporalReq)]⟩ }

/-- The same session as `pNow1` started one second of wall-clock time
later. -/
def pNow2 : SessionParams := { pNow1 with now := 1000000001 }

/-- A session for exercising the driver's action-1 call, with the identity
service abstracted by the seed-string function `f` and one opaque additive
field. -/
def pC9 (f : String → Ident) : SessionParams :=
  { pBase with
    additiveClasses := fun st => ⟨st, [("f1", fieldOther)]⟩
    assign := fun _ s => f s }

/-- Like `pC9` but with a reference-valued additive field, so that the
additive rule must subscript its `ids_by_type` argument. -/
def pC9crash (f : String → Ident) : SessionParams :=
  { pC9 f with additiveClasses := fun st => ⟨st, [("refA", fieldRefReq)]⟩ }

/-- The seed string actually interpolated by the standalone rule-set
provider when the driver's swapped call binds the registry mapping to
`identifier_seed`. -/
def swappedSeedString : String :=
  "artificial-rule-set-" ++ pyStr (.mapping initialRegistry)

/-- The all-zero random tape. -/
def tape0 : Tape := fun _ => 0

/-- The all-one random tape (driver action draw 1). -/
def tape1 : Tape := fun _ => 1

/-- The all-two random tape (driver action draw 2). -/
def tape2 : Tape := fun _ => 2

/-- A constant tape chosen so that the temporal draw lands on different
epoch seconds for `now` readings one second apart. -/
def tapeC5 : Tape := fun _ => 200000001

/-! ## Helper lemmas -/

theorem regLookup_registerId_self (r : Registry) (st : StemType) (i : Ident) :
    i ∈ regLookup (registerId r st i) st := by
  induction r with
  | nil => simp [registerId, regLookup]
  | cons hd tl ih =>
    obtain ⟨s, ids⟩ := hd
    by_cases h : s = st
    · subst h
      by_cases hm : i ∈ ids <;> simp [registerId, regLookup, hm]
    · simp [registerId, regLookup, h, ih]

theorem pyint_le (g : Rng) (lo hi : Nat) (h : lo ≤ hi) :
    lo ≤ (pyint g lo hi).1 ∧ (pyint g lo hi).1 ≤ hi := by
  have hlt : g.tape g.pos % (hi + 1 - lo) < hi + 1 - lo :=
    Nat.mod_lt _ (by omega)
  simp only [pyint, Rng.next]
  omega

theorem max_items_draw_mem (n : Nat) :
    max_items_draw n ∈ max_items_choices := by
  have h : n % 6 < 6 := Nat.mod_lt _ (by omega)
  unfold max_items_draw
  rcases h6 : n % 6 with _ | _ | _ | _ | _ | _ | m
  · simp [max_items_choices, h6]
  · simp [max_items_choices, h6]
  · simp [max_items_choices, h6]
  · simp [max_items_choices, h6]
  · simp [max_items_choices, h6]
  · simp [max_items_choices, h6]
  · omega

theorem collectValues_length
    (factory : Rng → Except GenError (Option Value) × Rng) :
    ∀ n g vs g', collectValues factory n g = (.ok vs, g') → vs.length ≤ n := by
  intro n
  induction n with
  | zero =>
    intro g vs g' h
    simp only [collectValues, Prod.mk.injEq, Except.ok.injEq] at h
    simp [← h.1]
  | succ n ih =>
    intro g vs g' h
    simp only [collectValues] at h
    split at h
    · simp at h
    · rename_i v? g1 heq
      split at h
      · simp at h
      · rename_i vs2 g2 heq2
        have hlen := ih _ _ _ heq2
        simp only [Prod.mk.injEq, Except.ok.injEq] at h
        cases v? with
        | some v =>
          rw [← h.1]
          simpa using hlen
        | none =>
          rw [← h.1]
          exact le_trans hlen (Nat.le_succ n)

/-! ## C6: cardinality resolution -/

/-- C6 (the code evaluated at the failing input): the max-items draw
executed by `min_max_for_field` is UNIFORM over the keys 1, 2, 3, 4, 5, 10
— each key is hit by exactly one of the six equally likely draw residues,
i.e. with probability 1/6, not with the weights 0.42, 0.28, 0.16, 0.08,
0.04, 0.02 spelled out by the inert OrderedDict values — while the
structural rules of the claim (list min defaults to 0, a declared minimum
list length becomes min and raises max by the same amount, a declared
maximum overrides max, scalar fields resolve to (required as 0/1, 1)) hold
as stated. -/
theorem max_items_draw_uniform :
    (∀ (t : Tape) (q : Nat) (f : FieldInfo),
      (min_max_for_field ⟨t, q⟩ f).1 =
        if f.isList then
          (f.minLen.getD 0,
            match f.maxLen with
            | some mx => mx
            | none => max_items_draw (t q) + f.minLen.getD 0)
        else ((if f.isRequired then 1 else 0), 1)) ∧
    (∀ n, max_items_draw n ∈ max_items_choices) ∧
    ((List.range 6).countP (fun n => max_items_draw n == 1) = 1 ∧
      (List.range 6).countP (fun n => max_items_draw n == 2) = 1 ∧
      (List.range 6).countP (fun n => max_items_draw n == 3) = 1 ∧
      (List.range 6).countP (fun n => max_items_draw n == 4) = 1 ∧
      (List.range 6).countP (fun n => max_items_draw n == 5) = 1 ∧
      (List.range 6).countP (fun n => max_items_draw n == 10) = 1) := by
  refine ⟨?_, max_items_draw_mem, by decide⟩
  intro t q f
  cases hl : f.isList
  · simp [min_max_for_field, hl]
  · cases hmin : f.minLen <;> cases hmax : f.maxLen <;>
      simp [min_max_for_field, hl, hmin, hmax, random_element_max_items,
        Rng.next]

/-! ## C7: field population -/

/-- C7: `field_value` draws the call count uniformly from the resolved
`[min, max]` range, collects the non-null synthesizer results, and returns
their set-semantics deduplication, so the returned list has no duplicates
and its length never exceeds the resolved max. -/
theorem field_population (p : SessionParams) (s : FieldSpec) (arg : PyArg)
    (g g1 g2 g3 g4 : Rng) (kind : FieldKind) (lo hi n : Nat)
    (raw : List Value)
    (hg : get_random_field_info g s = (kind, g1))
    (hmm : min_max_for_field g1 s.info = ((lo, hi), g2))
    (hn : pyint g2 lo hi = (n, g3))
    (hc : collectValues (field_value_factory p kind arg) n g3 = (.ok raw, g4))
    (hle : lo ≤ hi) :
    field_value p s arg g = (.ok (kind, raw.dedup), g4) ∧
      raw.dedup.Nodup ∧ lo ≤ n ∧ n ≤ hi ∧ raw.dedup.length ≤ n ∧
      raw.dedup.length ≤ hi := by
  have hb := pyint_le g2 lo hi hle
  rw [hn] at hb
  have hraw : raw.dedup.length ≤ n :=
    le_trans (List.dedup_sublist raw).length_le
      (collectValues_length _ n g3 raw g4 hc)
  refine ⟨?_, List.nodup_dedup raw, hb.1, hb.2, hraw, le_trans hraw hb.2⟩
  simp only [field_value, hg, hmm, hn, hc]

/-- Witness for C7: a required scalar field on the all-zero tape resolves
to bounds (1, 1), the synthesizer is called once and the returned singleton
is duplicate-free and within the max. -/
theorem field_population_witness :
    field_value pBase fieldOtherReq (.mapping initialRegistry) ⟨tape0, 0⟩ =
      (.ok (.other, [Value.other 0]), ⟨tape0, 2⟩) ∧
      ([Value.other 0] : List Value).Nodup ∧ 1 ≤ 1 ∧ 1 ≤ 1 ∧
      ([Value.other 0] : List Value).length ≤ 1 ∧
      ([Value.other 0] : List Value).length ≤ 1 :=
  field_population pBase fieldOtherReq (.mapping initialRegistry)
    ⟨tape0, 0⟩ ⟨tape0, 0⟩ ⟨tape0, 0⟩ ⟨tape0, 1⟩ ⟨tape0, 2⟩
    .other 1 1 1 [Value.other 0] rfl rfl rfl rfl (by decide)

/-! ## C8: bounded numerify-pattern synthesis -/

theorem numerify_patterns_go_spec (rmatch : String → String → Bool)
    (nps rps : List String) :
    ∀ n g, (numerify_patterns_go rmatch nps rps n g).1 =
      firstMatchingAttempt (numerify_attempts rmatch nps rps n g) := by
  intro n
  induction n with
  | zero => intro g; rfl
  | succ n ih =>
    intro g
    simp only [numerify_patterns_go, numerify_attempts]
    rcases ha : numerify_attempt rmatch nps rps g with ⟨⟨s, b⟩, g'⟩
    cases b <;> simp [firstMatchingAttempt, ih]

theorem firstMatchingAttempt_eq_none :
    ∀ l : List (String × Bool),
      firstMatchingAttempt l = none ↔ ∀ a ∈ l, a.2 = false := by
  intro l
  induction l with
  | nil => simp [firstMatchingAttempt]
  | cons hd tl ih =>
    obtain ⟨s, b⟩ := hd
    cases b <;> simp [firstMatchingAttempt, ih]

theorem numerify_attempts_length (rmatch : String → String → Bool)
    (nps rps : List String) :
    ∀ n g, (numerify_attempts rmatch nps rps n g).length = n := by
  intro n
  induction n with
  | zero => intro g; rfl
  | succ n ih =>
    intro g
    simp only [numerify_attempts]
    rcases numerify_attempt rmatch nps rps g with ⟨a, g'⟩
    simp [ih]

/-- C8: `numerify_patterns` makes exactly 10 bounded turns, each picking one
numerify pattern and one regex pattern and substituting wildcard markers
with random digits; it returns the first substituted string matching its
picked regex, and `None` (without raising) when all 10 turns fail. -/
theorem pattern_synthesis_ten_turns (rmatch : String → String → Bool)
    (nps rps : List String) (g : Rng) :
    (numerify_patterns rmatch nps rps g).1 =
      firstMatchingAttempt (numerify_attempts rmatch nps rps 10 g) ∧
    (numerify_attempts rmatch nps rps 10 g).length = 10 ∧
    ((numerify_patterns rmatch nps rps g).1 = none ↔
      ∀ a ∈ numerify_attempts rmatch nps rps 10 g, a.2 = false) := by
  have h := numerify_patterns_go_spec rmatch nps rps 10 g
  refine ⟨h, numerify_attempts_length rmatch nps rps 10 g, ?_⟩
  rw [numerify_patterns, h]
  exact firstMatchingAttempt_eq_none _

/-! ## Retry recursion lemmas -/

theorem retryLoop_ok_imp {α : Type} (attempt : Rng → Except GenError α × Rng)
    (P : α → Prop) (hP : ∀ g a g', attempt g = (.ok a, g') → P a) :
    ∀ fuel g a g', retryLoop attempt fuel g = (.ok a, g') → P a := by
  intro fuel
  induction fuel with
  | zero =>
    intro g a g' h
    simp only [retryLoop] at h
    split at h
    · rename_i a0 g0 heq
      simp only [Prod.mk.injEq, Except.ok.injEq] at h
      exact h.1 ▸ hP g a0 g0 heq
    · simp at h
  | succ fuel ih =>
    intro g a g' h
    simp only [retryLoop] at h
    split at h
    · rename_i a0 g0 heq
      simp only [Prod.mk.injEq, Except.ok.injEq] at h
      exact h.1 ▸ hP g a0 g0 heq
    · rename_i g0 heq
      exact ih g0 a g' h
    · simp at h

theorem retryLoop_all_fail {α : Type}
    (attempt : Rng → Except GenError α × Rng)
    (hfail : ∀ g, (attempt g).1 = .error .validationError) :
    ∀ fuel g, retryLoop attempt fuel g =
      (.error .validationError, (attemptAdvance attempt)^[fuel + 1] g) := by
  intro fuel
  induction fuel with
  | zero =>
    intro g
    rcases ha : attempt g with ⟨res, g'⟩
    have hres : res = .error .validationError := by
      have h0 := hfail g
      rw [ha] at h0
      exact h0
    subst hres
    have hadv : attemptAdvance attempt g = g' := by
      simp [attemptAdvance, ha]
    simp [retryLoop, ha, hadv]
  | succ fuel ih =>
    intro g
    rcases ha : attempt g with ⟨res, g'⟩
    have hres : res = .error .validationError := by
      have h0 := hfail g
      rw [ha] at h0
      exact h0
    subst hres
    have hadv : attemptAdvance attempt g = g' := by
      simp [attemptAdvance, ha]
    simp only [retryLoop, ha]
    rw [ih g']
    rw [show fuel + 1 + 1 = fuel + 1 + 1 from rfl, Function.iterate_succ_apply
      (attemptAdvance attempt) (fuel + 1) g, hadv]

theorem extracted_item_attempt_valid (p : SessionParams)
    (stem_types : List StemType) (arg : PyArg) :
    ∀ g item g', extracted_item_attempt p stem_types arg g = (.ok item, g') →
      p.valid item = true := by
  intro g item g' h
  simp only [extracted_item_attempt] at h
  split at h
  · simp at h
  · split at h
    · simp at h
    · split at h
      · simp at h
      · split at h
        · simp at h
        · split at h
          · rename_i hvalid
            simp only [Prod.mk.injEq, Except.ok.injEq] at h
            exact h.1 ▸ hvalid
          · simp at h

theorem standalone_rule_set_attempt_valid (p : SessionParams)
    (stem_types : List StemType) (seedArg arg : PyArg) :
    ∀ g rs g',
      standalone_rule_set_attempt p stem_types seedArg arg g = (.ok rs, g') →
        p.ruleSetValid rs = true := by
  intro g rs g' h
  simp only [standalone_rule_set_attempt] at h
  split at h
  · simp at h
  · split at h
    · simp at h
    · split at h
      · rename_i hvalid
        simp only [Prod.mk.injEq, Except.ok.injEq] at h
        exact h.1 ▸ hvalid
      · simp at h

/-! ## C4: bounded validation-retry budget -/

/-- C4: when a synthesized record fails schema validation the whole record
is regenerated, consuming one unit of the retry budget; when every attempt
fails, `extracted_item` and `standalone_rule_set` raise the validation
error after exactly `fuel + 1` attempts (the initial attempt plus `fuel`
retries, `fuel` defaulting to 10) — the final random state is the
`fuel + 1`-fold attempt advance — and a successful return is always a
schema-valid record, never a partially-valid one. -/
theorem validation_retry_budget (p : SessionParams)
    (stem_types : List StemType) (argE seedArg argR : PyArg) (fuel : Nat) :
    ((∀ g, (extracted_item_attempt p stem_types argE g).1 =
        .error .validationError) →
      ∀ g, extracted_item p stem_types argE fuel g =
        (.error .validationError,
          (attemptAdvance
            (extracted_item_attempt p stem_types argE))^[fuel + 1] g)) ∧
    (∀ g item g', extracted_item p stem_types argE fuel g = (.ok item, g') →
      p.valid item = true) ∧
    ((∀ g, (standalone_rule_set_attempt p stem_types seedArg argR g).1 =
        .error .validationError) →
      ∀ g, standalone_rule_set p stem_types seedArg argR fuel g =
        (.error .validationError,
          (attemptAdvance
            (standalone_rule_set_attempt p stem_types seedArg argR))^[fuel + 1]
            g)) ∧
    (∀ g rs g', standalone_rule_set p stem_types seedArg argR fuel g =
        (.ok rs, g') → p.ruleSetValid rs = true) := by
  refine ⟨?_, ?_, ?_, ?_⟩
  · intro hfail g
    exact retryLoop_all_fail _ hfail fuel g
  · intro g item g' h
    exact retryLoop_ok_imp _ (fun it => p.valid it = true)
      (extracted_item_attempt_valid p stem_types argE) fuel g item g' h
  · intro hfail g
    exact retryLoop_all_fail _ hfail fuel g
  · intro g rs g' h
    exact retryLoop_ok_imp _ (fun r => p.ruleSetValid r = true)
      (standalone_rule_set_attempt_valid p stem_types seedArg argR) fuel g rs
      g' h

theorem pFail_extracted_attempt_fails :
    ∀ g, (extracted_item_attempt pFail ["X"] (.mapping initialRegistry) g).1 =
      .error .validationError := by
  intro g
  simp [extracted_item_attempt, random_element, Rng.next, Nat.mod_one,
    pFail, pBase, emptyClasses, initialRegistry, regLookup,
    mexPrimarySourceId, populateFields]

theorem pFail_standalone_attempt_fails :
    ∀ g, (standalone_rule_set_attempt pFail ["X"] (.int 0)
      (.mapping initialRegistry) g).1 = .error .validationError := by
  intro g
  simp [standalone_rule_set_attempt, random_element, Rng.next, Nat.mod_one,
    pFail, pBase, emptyClasses, additive_rule, populateFields]

/-- Witness for C4: under a schema rejecting every record, both synthesis
entry points raise the validation error after the initial attempt plus all
10 default retries. -/
theorem validation_retry_budget_witness :
    extracted_item pFail ["X"] (.mapping initialRegistry) 10 ⟨tape0, 0⟩ =
      (.error .validationError,
        (attemptAdvance
          (extracted_item_attempt pFail ["X"]
            (.mapping initialRegistry)))^[11] ⟨tape0, 0⟩) ∧
    standalone_rule_set pFail ["X"] (.int 0) (.mapping initialRegistry) 10
        ⟨tape0, 0⟩ =
      (.error .validationError,
        (attemptAdvance
          (standalone_rule_set_attempt pFail ["X"] (.int 0)
            (.mapping initialRegistry)))^[11] ⟨tape0, 0⟩) :=
  ⟨(validation_retry_budget pFail ["X"] (.mapping initialRegistry) (.int 0)
      (.mapping initialRegistry) 10).1 pFail_extracted_attempt_fails
      ⟨tape0, 0⟩,
    (validation_retry_budget pFail ["X"] (.mapping initialRegistry) (.int 0)
      (.mapping initialRegistry) 10).2.2.1 pFail_standalone_attempt_fails
      ⟨tape0, 0⟩⟩

/-! ## Stream step lemmas -/

theorem extracted_items_step_valid (p : SessionParams)
    (stem_types : List StemType) (s : GenState) (item : ExtractedRecord)
    (s' : GenState)
    (h : extracted_items_step p stem_types s = .ok (item, s')) :
    p.valid item = true := by
  simp only [extracted_items_step] at h
  split at h
  · rename_i item0 g0 heq
    simp only [Except.ok.injEq, Prod.mk.injEq] at h
    exact h.1 ▸ retryLoop_ok_imp _ (fun it => p.valid it = true)
      (extracted_item_attempt_valid p stem_types (.mapping s.reg))
      default_generation_attempts s.rng item0 g0 heq
  · simp at h

theorem extracted_items_step_registry (p : SessionParams)
    (stem_types : List StemType) (s : GenState) (item : ExtractedRecord)
    (s' : GenState)
    (h : extracted_items_step p stem_types s = .ok (item, s')) :
    s'.reg = registerId s.reg item.stemType item.stableTargetId := by
  simp only [extracted_items_step] at h
  split at h
  · rename_i item0 g0 heq
    simp only [Except.ok.injEq, Prod.mk.injEq] at h
    rw [← h.1, ← h.2]
  · simp at h

theorem driver_step_shape (p : SessionParams) (stem_types : List StemType)
    (s : DriverState) (el : ExtractedItemAndRuleSet) (s' : DriverState)
    (h : driver_step p stem_types s = .ok (el, s')) :
    (∃ item g', extracted_item p stem_types (.mapping s.reg)
        default_generation_attempts (pyint s.rng 0 2).2 = (.ok item, g') ∧
      el = ⟨some item, none⟩ ∧
      s' = ⟨registerId s.reg item.stemType item.stableTargetId, g',
        s.index + 1⟩) ∨
    (∃ rs g', standalone_rule_set p stem_types (.mapping s.reg)
        (.int s.index) default_generation_attempts (pyint s.rng 0 2).2 =
          (.ok rs, g') ∧
      el = ⟨none, some rs⟩ ∧
      s' = ⟨registerId s.reg rs.stemType rs.stableTargetId, g',
        s.index + 1⟩) ∨
    (∃ item rs g' g'', extracted_item p stem_types (.mapping s.reg)
        default_generation_attempts (pyint s.rng 0 2).2 = (.ok item, g') ∧
      rule_set_for_item p item (.mapping s.reg) default_generation_attempts
        g' = (.ok rs, g'') ∧
      el = ⟨some item, some rs⟩ ∧ s' = ⟨s.reg, g'', s.index + 1⟩) := by
  simp only [driver_step] at h
  rcases hp : pyint s.rng 0 2 with ⟨a, g⟩
  rw [hp] at h
  simp only at h
  split at h
  · split at h
    · simp at h
    · rename_i item0 g0 heq
      simp only [Except.ok.injEq, Prod.mk.injEq] at h
      exact Or.inl ⟨item0, g0, heq, h.1.symm, h.2.symm⟩
  · split at h
    · simp at h
    · rename_i rs0 g0 heq
      simp only [Except.ok.injEq, Prod.mk.injEq] at h
      exact Or.inr (Or.inl ⟨rs0, g0, heq, h.1.symm, h.2.symm⟩)
  · split at h
    · simp at h
    · rename_i item0 g0 heq
      split at h
      · simp at h
      · rename_i rs0 g1 heq2
        simp only [Except.ok.injEq, Prod.mk.injEq] at h
        exact Or.inr (Or.inr ⟨item0, rs0, g0, g1, heq, heq2, h.1.symm,
          h.2.symm⟩)

theorem driver_step_item_valid (p : SessionParams)
    (stem_types : List StemType) (s : DriverState)
    (el : ExtractedItemAndRuleSet) (s' : DriverState)
    (h : driver_step p stem_types s = .ok (el, s')) :
    ∀ item, el.extracted_item = some item → p.valid item = true := by
  intro item hel
  rcases driver_step_shape p stem_types s el s' h with
    ⟨item0, g0, heq, hshape, _⟩ | ⟨rs0, g0, heq, hshape, _⟩ |
    ⟨item0, rs0, g0, g1, heq, _, hshape, _⟩
  · subst hshape
    simp only at hel
    cases hel
    exact retryLoop_ok_imp _ (fun it => p.valid it = true)
      (extracted_item_attempt_valid p stem_types (.mapping s.reg))
      default_generation_attempts _ _ g0 heq
  · subst hshape
    simp at hel
  · subst hshape
    simp only at hel
    cases hel
    exact retryLoop_ok_imp _ (fun it => p.valid it = true)
      (extracted_item_attempt_valid p stem_types (.mapping s.reg))
      default_generation_attempts _ _ g0 heq

/-! ## C1: schema validation of emitted entities -/

/-- C1 (amended): every entity emitted by either generation stream other
than the initial root primary-source element has passed schema validation
at the moment it is yielded; the root itself is emitted without validation
(see the counterexample). -/
theorem emitted_entities_validated (p : SessionParams)
    (stem_types : List StemType) (t : Tape) :
    (∀ n items s k item,
      generate_artificial_extracted_items p stem_types t n = .ok (items, s) →
      items.get? (k + 1) = some item → p.valid item = true) ∧
    (∀ n els s k el item,
      generate_artificial_items_and_rule_sets p stem_types t n =
        .ok (els, s) →
      els.get? (k + 1) = some el → el.extracted_item = some item →
      p.valid item = true) := by
  constructor
  · intro n
    induction n with
    | zero =>
      intro items s k item h hget
      simp only [generate_artificial_extracted_items, Except.ok.injEq,
        Prod.mk.injEq] at h
      rw [← h.1] at hget
      simp at hget
    | succ n ih =>
      intro items s k item h hget
      simp only [generate_artificial_extracted_items] at h
      split at h
      · simp at h
      · rename_i items0 s0 heq
        split at h
        · rename_i item0 s1 hstep
          simp only [Except.ok.injEq, Prod.mk.injEq] at h
          rw [← h.1] at hget
          rcases Nat.lt_or_ge (k + 1) items0.length with hlt | hge
          · rw [List.get?_append hlt] at hget
            exact ih items0 s0 k item heq hget
          · rw [List.get?_append_right hge] at hget
            rcases hd : k + 1 - items0.length with _ | m
            · rw [hd] at hget
              simp only [List.get?] at hget
              cases hget
              exact extracted_items_step_valid p stem_types s0 item s1 hstep
            · rw [hd] at hget
              simp at hget
        · simp at h
  · intro n
    induction n with
    | zero =>
      intro els s k el item h hget hel
      simp only [generate_artificial_items_and_rule_sets, Except.ok.injEq,
        Prod.mk.injEq] at h
      rw [← h.1] at hget
      simp at hget
    | succ n ih =>
      intro els s k el item h hget hel
      simp only [generate_artificial_items_and_rule_sets] at h
      split at h
      · simp at h
      · rename_i els0 s0 heq
        split at h
        · rename_i el0 s1 hstep
          simp only [Except.ok.injEq, Prod.mk.injEq] at h
          rw [← h.1] at hget
          rcases Nat.lt_or_ge (k + 1) els0.length with hlt | hge
          · rw [List.get?_append hlt] at hget
            exact ih els0 s0 k el item heq hget hel
          · rw [List.get?_append_right hge] at hget
            rcases hd : k + 1 - els0.length with _ | m
            · rw [hd] at hget
              simp only [List.get?] at hget
              cases hget
              exact driver_step_item_valid p stem_types s0 el s1 hstep item
                hel
            · rw [hd] at hget
              simp at hget
        · simp at h

/-- Counterexample for C1 as stated: with a schema that rejects every
record, both streams still emit the root primary-source entity as their
first element — it was built with `model_construct` and is yielded without
ever being validated. -/
theorem root_emitted_without_validation :
    extractedItemsList pFail ["X"] tape0 0 = [mexPrimarySource] ∧
    driverElementsList pFail ["X"] tape0 0 =
      [⟨some mexPrimarySource, none⟩] ∧
    pFail.valid mexPrimarySource = false :=
  ⟨rfl, rfl, rfl⟩

/-- The first non-root entity of the `pRef` session on the all-zero tape. -/
def c1WitnessItem : ExtractedRecord :=
  ⟨"X", 0, "X_0", 103, [⟨"ref1", .reference ["PrimarySource"], [.ref 0]⟩]⟩

/-- Witness for C1: the first non-root entity of a concrete session is
schema-valid. -/
theorem emitted_entities_validated_witness :
    pRef.valid c1WitnessItem = true :=
  (emitted_entities_validated pRef ["X"] tape0).1 1
    [mexPrimarySource, c1WitnessItem]
    ⟨registerId initialRegistry "X" 103, ⟨tape0, 4⟩⟩ 0 c1WitnessItem rfl rfl

/-! ## C3: registration of new stable target ids -/

/-- C3 (amended): the new stable target id is registered into `IdsByType`
immediately after synthesis succeeds and before the element is yielded —
hence before any later entity can be synthesized — for every entity of the
extracted-items stream and for the driver's item-only (action 0) and
rule-set-only (action 1) elements; the entities yielded together with a
paired rule set (action 2) are never registered: the registry is left
unchanged by such a step (see the counterexample). -/
theorem registration_ordering (p : SessionParams)
    (stem_types : List StemType) :
    (∀ s item s', extracted_items_step p stem_types s = .ok (item, s') →
      s'.reg = registerId s.reg item.stemType item.stableTargetId ∧
      item.stableTargetId ∈ regLookup s'.reg item.stemType) ∧
    (∀ s el s', driver_step p stem_types s = .ok (el, s') →
      (∀ item, el.extracted_item = some item → el.rule_set = none →
        s'.reg = registerId s.reg item.stemType item.stableTargetId ∧
        item.stableTargetId ∈ regLookup s'.reg item.stemType) ∧
      (∀ rs, el.rule_set = some rs → el.extracted_item = none →
        s'.reg = registerId s.reg rs.stemType rs.stableTargetId ∧
        rs.stableTargetId ∈ regLookup s'.reg rs.stemType) ∧
      (∀ item rs, el.extracted_item = some item → el.rule_set = some rs →
        s'.reg = s.reg)) := by
  constructor
  · intro s item s' h
    have hreg := extracted_items_step_registry p stem_types s item s' h
    exact ⟨hreg, hreg ▸ regLookup_registerId_self s.reg item.stemType
      item.stableTargetId⟩
  · intro s el s' h
    rcases driver_step_shape p stem_types s el s' h with
      ⟨item0, g0, heq, hel, hst⟩ | ⟨rs0, g0, heq, hel, hst⟩ |
      ⟨item0, rs0, g0, g1, heq, heq2, hel, hst⟩
    · subst hel; subst hst
      refine ⟨?_, ?_, ?_⟩
      · intro item hitem hrs
        simp only at hitem
        cases hitem
        exact ⟨rfl, regLookup_registerId_self _ _ _⟩
      · intro rs hrs
        simp at hrs
      · intro item rs hitem hrs
        simp at hrs
    · subst hel; subst hst
      refine ⟨?_, ?_, ?_⟩
      · intro item hitem hrs
        simp at hitem
      · intro rs hrs hitem
        simp only at hrs
        cases hrs
        exact ⟨rfl, regLookup_registerId_self _ _ _⟩
      · intro item rs hitem hrs
        simp at hitem
    · subst hel; subst hst
      refine ⟨?_, ?_, ?_⟩
      · intro item hitem hrs
        simp at hrs
      · intro rs hrs hitem
        simp at hitem
      · intro item rs hitem hrs
        rfl

/-- The entity synthesized by the driver's first action-2 step on the
all-two tape. -/
def c3Item : ExtractedRecord := ⟨"X", 0, "X_0", 103, []⟩

/-- The paired rule set of that step. -/
def c3RuleSet : RuleSetRecord := ⟨"X", 103, none, some 2, none⟩

/-- Counterexample for C3 as stated: a concrete driver session whose first
step draws action 2 yields an entity (paired with a rule set) whose stable
target id is never registered — the registry after the step is unchanged
and does not contain the id. -/
theorem action2_skips_registration :
    driverElementsList pBase ["X"] tape2 1 =
      [⟨some mexPrimarySource, none⟩, ⟨some c3Item, some c3RuleSet⟩] ∧
    driverRegAt pBase ["X"] tape2 1 = initialRegistry ∧
    c3Item.stableTargetId ∉ regLookup initialRegistry c3Item.stemType := by
  refine ⟨by decide, by decide, by decide⟩

/-- Witness for C3: a concrete extracted-items step registers the new id
before yielding. -/
theorem registration_ordering_witness :
    (⟨registerId initialRegistry "X" 103, ⟨tape0, 4⟩⟩ : GenState).reg =
      registerId initialRegistry c1WitnessItem.stemType
        c1WitnessItem.stableTargetId ∧
    c1WitnessItem.stableTargetId ∈
      regLookup
        (⟨registerId initialRegistry "X" 103, ⟨tape0, 4⟩⟩ : GenState).reg
        c1WitnessItem.stemType :=
  (registration_ordering pRef ["X"]).1 ⟨initialRegistry, ⟨tape0, 0⟩⟩
    c1WitnessItem ⟨registerId initialRegistry "X" 103, ⟨tape0, 4⟩⟩ rfl

/-! ## C10: every yielded pair has a present side -/

/-- C10: every element yielded by the items-and-rule-sets driver has at
least one side present — the extracted item and the rule set are never both
absent (action 0 yields an item, action 1 a rule set, action 2 both, and
the initial element carries the root entity). -/
theorem yielded_pair_never_empty (p : SessionParams)
    (stem_types : List StemType) (t : Tape) (n : Nat)
    (els : List ExtractedItemAndRuleSet) (s : DriverState)
    (h : generate_artificial_items_and_rule_sets p stem_types t n =
      .ok (els, s)) :
    ∀ el ∈ els, el.extracted_item.isSome ∨ el.rule_set.isSome := by
  induction n generalizing els s with
  | zero =>
    simp only [generate_artificial_items_and_rule_sets, Except.ok.injEq,
      Prod.mk.injEq] at h
    rw [← h.1]
    intro el hel
    simp only [List.mem_singleton] at hel
    subst hel
    simp
  | succ n ih =>
    simp only [generate_artificial_items_and_rule_sets] at h
    split at h
    · simp at h
    · rename_i els0 s0 heq
      split at h
      · rename_i el0 s1 hstep
        simp only [Except.ok.injEq, Prod.mk.injEq] at h
        rw [← h.1]
        intro el hel
        rcases List.mem_append.mp hel with hmem | hmem
        · exact ih els0 s0 heq el hmem
        · simp only [List.mem_singleton] at hmem
          subst hmem
          rcases driver_step_shape p stem_types s0 el s1 hstep with
            ⟨item0, g0, _, hshape, _⟩ | ⟨rs0, g0, _, hshape, _⟩ |
            ⟨item0, rs0, g0, g1, _, _, hshape, _⟩ <;> subst hshape <;> simp
      · simp at h

/-- Witness for C10: the root element of a concrete driver session has its
extracted-item side present. -/
theorem yielded_pair_never_empty_witness :
    (⟨some mexPrimarySource, none⟩ :
      ExtractedItemAndRuleSet).extracted_item.isSome ∨
    (⟨some mexPrimarySource, none⟩ :
      ExtractedItemAndRuleSet).rule_set.isSome :=
  yielded_pair_never_empty pBase ["X"] tape0 0
    [⟨some mexPrimarySource, none⟩] ⟨initialRegistry, ⟨tape0, 0⟩, 0⟩ rfl
    ⟨some mexPrimarySource, none⟩ (by simp)

/-! ## C2: reference values come from the registry -/

theorem field_value_factory_ref (p : SessionParams) (kind : FieldKind)
    (r : Registry) :
    ∀ g v g',
      field_value_factory p kind (.mapping r) g = (.ok (some v), g') →
      ∀ i, v = Value.ref i →
        ∃ ts, kind = FieldKind.reference ts ∧
          ∃ st ∈ ts, i ∈ regLookup r st := by
  intro g v g' h i hv
  subst hv
  cases kind with
  | reference targets =>
    refine ⟨targets, rfl, ?_⟩
    simp only [field_value_factory, reference] at h
    split at h
    · simp at h
    · simp only [random_element, Rng.next, Prod.mk.injEq,
        Except.ok.injEq] at h
      rcases Option.map_eq_some'.mp h.1 with ⟨x, hget, hx⟩
      have hmem : x ∈ (targets.map (regLookup r)).flatten :=
        List.get?_mem hget
      rcases List.mem_flatten.mp hmem with ⟨l, hl, hxl⟩
      rcases List.mem_map.mp hl with ⟨st, hst, hlst⟩
      have hxi : x = i := by
        cases hx
        rfl
      exact ⟨st, hst, hxi ▸ hlst ▸ hxl⟩
  | temporal pc =>
    simp only [field_value_factory, temporal_entity, pyint, Rng.next,
      Prod.mk.injEq, Except.ok.injEq] at h
    simp at h
  | text =>
    simp only [field_value_factory, text_string, pyint, Rng.next,
      Prod.mk.injEq, Except.ok.injEq] at h
    rcases hw : drawWords p.localeWord
        (1 + g.tape g.pos % (max (p.chattiness / 5) 3 + 1 - 1))
        ⟨g.tape, g.pos + 1⟩ with ⟨ws, g2⟩
    rw [hw] at h
    simp at h
  | other =>
    simp only [field_value_factory, otherValue, Rng.next, Prod.mk.injEq,
      Except.ok.injEq] at h
    simp at h

theorem collectValues_forall
    (factory : Rng → Except GenError (Option Value) × Rng) (P : Value → Prop)
    (hf : ∀ g v g', factory g = (.ok (some v), g') → P v) :
    ∀ n g vs g', collectValues factory n g = (.ok vs, g') →
      ∀ v ∈ vs, P v := by
  intro n
  induction n with
  | zero =>
    intro g vs g' h
    simp only [collectValues, Prod.mk.injEq, Except.ok.injEq] at h
    rw [← h.1]
    simp
  | succ n ih =>
    intro g vs g' h
    simp only [collectValues] at h
    split at h
    · simp at h
    · rename_i v? g1 heq
      split at h
      · simp at h
      · rename_i vs2 g2 heq2
        simp only [Prod.mk.injEq, Except.ok.injEq] at h
        intro v hv
        rw [← h.1] at hv
        cases v? with
        | some v0 =>
          rcases List.mem_cons.mp hv with hv0 | hvtail
          · exact hv0 ▸ hf g v0 g1 heq
          · exact ih g1 vs2 g2 heq2 v hvtail
        | none => exact ih g1 vs2 g2 heq2 v hv

theorem field_value_ref (p : SessionParams) (s : FieldSpec) (r : Registry) :
    ∀ g kind vs g', field_value p s (.mapping r) g = (.ok (kind, vs), g') →
      ∀ v ∈ vs, ∀ i, v = Value.ref i →
        ∃ ts, kind = FieldKind.reference ts ∧
          ∃ st ∈ ts, i ∈ regLookup r st := by
  intro g kind vs g' h v hv i hvi
  simp only [field_value] at h
  split at h
  · simp at h
  · rename_i raw g4 heq
    simp only [Prod.mk.injEq, Except.ok.injEq] at h
    obtain ⟨⟨hk, hvs⟩, _⟩ := h
    rw [← hvs] at hv
    have hraw : v ∈ raw := List.mem_dedup.mp hv
    rw [← hk]
    exact collectValues_forall _ _
      (field_value_factory_ref p _ r) _ _ raw g4 heq v hraw i hvi

theorem populateFields_ref (p : SessionParams) (r : Registry) :
    ∀ fs g entries g',
      populateFields p (.mapping r) fs g = (.ok entries, g') →
      ∀ e ∈ entries, ∀ v ∈ e.values, ∀ i, v = Value.ref i →
        ∃ ts, e.kind = FieldKind.reference ts ∧
          ∃ st ∈ ts, i ∈ regLookup r st := by
  intro fs
  induction fs with
  | nil =>
    intro g entries g' h
    simp only [populateFields, Prod.mk.injEq, Except.ok.injEq] at h
    rw [← h.1]
    simp
  | cons hd tl ih =>
    obtain ⟨nm, spec⟩ := hd
    intro g entries g' h
    simp only [populateFields] at h
    split at h
    · simp at h
    · rename_i kind vs g1 heq
      split at h
      · simp at h
      · rename_i entries2 g2 heq2
        simp only [Prod.mk.injEq, Except.ok.injEq] at h
        intro e he
        rw [← h.1] at he
        rcases List.mem_cons.mp he with he0 | hetail
        · subst he0
          intro v hv i hvi
          exact field_value_ref p spec r g kind vs g1 heq v hv i hvi
        · exact ih g1 entries2 g2 heq2 e hetail

theorem extracted_item_attempt_refs (p : SessionParams)
    (stem_types : List StemType) (r : Registry) :
    ∀ g item g',
      extracted_item_attempt p stem_types (.mapping r) g = (.ok item, g') →
        RefsFrom r item := by
  intro g item g' h
  simp only [extracted_item_attempt] at h
  split at h
  · simp at h
  · split at h
    · simp at h
    · split at h
      · simp at h
      · rename_i entries g3 heq
        split at h
        · simp only [Prod.mk.injEq, Except.ok.injEq] at h
          rw [← h.1]
          intro e he v hv i hvi
          exact populateFields_ref p r _ _ entries g3 heq e he v hv i hvi
        · simp at h

/-- C2: the reference synthesizer returns no value exactly when the decoded
pools are empty, and otherwise an id already present in the registry under
one of the decoded stem types; consequently every reference value on an
entity synthesized by either stream's step was present in `IdsByType`
before that entity's synthesis began (the registry is only extended after
the attempt returns). -/
theorem no_forward_references (p : SessionParams)
    (stem_types : List StemType) :
    (∀ targets r g,
      ((targets.map (regLookup r)).flatten.isEmpty = true →
        (reference targets (.mapping r) g).1 = .ok none) ∧
      (∀ v g', reference targets (.mapping r) g = (.ok (some v), g') →
        ∃ i, v = Value.ref i ∧ ∃ st ∈ targets, i ∈ regLookup r st)) ∧
    (∀ s item s', extracted_items_step p stem_types s = .ok (item, s') →
      RefsFrom s.reg item) ∧
    (∀ s el s' item, driver_step p stem_types s = .ok (el, s') →
      el.extracted_item = some item → RefsFrom s.reg item) := by
  refine ⟨?_, ?_, ?_⟩
  · intro targets r g
    constructor
    · intro hempty
      simp [reference, hempty]
    · intro v g' h
      simp only [reference] at h
      split at h
      · simp at h
      · simp only [random_element, Rng.next, Prod.mk.injEq,
          Except.ok.injEq] at h
        rcases Option.map_eq_some'.mp h.1 with ⟨x, hget, hx⟩
        have hmem : x ∈ (targets.map (regLookup r)).flatten :=
          List.get?_mem hget
        rcases List.mem_flatten.mp hmem with ⟨l, hl, hxl⟩
        rcases List.mem_map.mp hl with ⟨st, hst, hlst⟩
        exact ⟨x, hx.symm, st, hst, hlst ▸ hxl⟩
  · intro s item s' h
    simp only [extracted_items_step] at h
    split at h
    · rename_i item0 g0 heq
      simp only [Except.ok.injEq, Prod.mk.injEq] at h
      exact h.1 ▸ retryLoop_ok_imp _ (RefsFrom s.reg)
        (extracted_item_attempt_refs p stem_types s.reg)
        default_generation_attempts s.rng item0 g0 heq
    · simp at h
  · intro s el s' item h hel
    rcases driver_step_shape p stem_types s el s' h with
      ⟨item0, g0, heq, hshape, _⟩ | ⟨rs0, g0, heq, hshape, _⟩ |
      ⟨item0, rs0, g0, g1, heq, _, hshape, _⟩
    · subst hshape
      simp only at hel
      cases hel
      exact retryLoop_ok_imp _ (RefsFrom s.reg)
        (extracted_item_attempt_refs p stem_types s.reg)
        default_generation_attempts _ _ g0 heq
    · subst hshape
      simp at hel
    · subst hshape
      simp only at hel
      cases hel
      exact retryLoop_ok_imp _ (RefsFrom s.reg)
        (extracted_item_attempt_refs p stem_types s.reg)
        default_generation_attempts _ _ g0 heq

/-- Witness for C2: the first non-root entity of a concrete session only
references ids (here the root primary-source id) that were already in the
registry before its synthesis began. -/
theorem no_forward_references_witness :
    RefsFrom initialRegistry c1WitnessItem :=
  (no_forward_references pRef ["X"]).2.1 ⟨initialRegistry, ⟨tape0, 0⟩⟩
    c1WitnessItem ⟨registerId initialRegistry "X" 103, ⟨tape0, 4⟩⟩ rfl

/-! ## C5: determinism and its wall-clock exception -/

/-- C5 (amended): generation output is a function of exactly the seeded
random tape, the locale corpora, chattiness, the stem-type allow-list, the
schema registry with its validation verdicts, the identity service, the
pulled count — and the wall-clock `now` timestamp: two runs agreeing on
all of these produce element-wise identical output.  The wall-clock
dependence is real (see the counterexample): `temporal_entity` bounds its
uniform draw by `datetime.now()`. -/
theorem determinism_modulo_wallclock (p1 p2 : SessionParams)
    (stems1 stems2 : List StemType) (t1 t2 : Tape) (n : Nat)
    (hc : p1.classes = p2.classes)
    (ha : p1.additiveClasses = p2.additiveClasses)
    (hv : p1.valid = p2.valid) (hr : p1.ruleSetValid = p2.ruleSetValid)
    (hs : p1.assign = p2.assign) (hl : p1.localeWord = p2.localeWord)
    (hch : p1.chattiness = p2.chattiness) (hn : p1.now = p2.now)
    (hst : stems1 = stems2) (ht : t1 = t2) :
    generate_artificial_extracted_items p1 stems1 t1 n =
      generate_artificial_extracted_items p2 stems2 t2 n ∧
    generate_artificial_items_and_rule_sets p1 stems1 t1 n =
      generate_artificial_items_and_rule_sets p2 stems2 t2 n := by
  have hp : p1 = p2 := by
    cases p1
    cases p2
    simp_all
  subst hp
  subst hst
  subst ht
  exact ⟨rfl, rfl⟩

/-- Witness for C5: a run is element-wise identical to itself under equal
inputs. -/
theorem determinism_modulo_wallclock_witness :
    generate_artificial_extracted_items pBase ["X"] tape0 1 =
      generate_artificial_extracted_items pBase ["X"] tape0 1 ∧
    generate_artificial_items_and_rule_sets pBase ["X"] tape0 1 =
      generate_artificial_items_and_rule_sets pBase ["X"] tape0 1 :=
  determinism_modulo_wallclock pBase pBase ["X"] ["X"] tape0 tape0 1
    rfl rfl rfl rfl rfl rfl rfl rfl rfl rfl

/-- Counterexample for C5 as stated: two sessions identical in every
configured input (same seed tape, locale corpora, chattiness, stem types,
schema and identity service) but started one wall-clock second apart yield
different first entities: the temporal draw's upper bound is
`datetime.now()`. -/
theorem output_depends_on_wallclock :
    pNow2 = { pNow1 with now := 1000000001 } ∧
    pNow1.now ≠ pNow2.now ∧
    extractedItemsList pNow1 ["X"] tapeC5 1 ≠
      extractedItemsList pNow2 ["X"] tapeC5 1 :=
  ⟨rfl, by decide, by decide⟩

/-! ## C9: the standalone rule-set call of the driver -/

/-- C9 (the code evaluated at the failing input): in the driver's action 1,
`faker.standalone_rule_set(stem_types, ids_by_type, index)` binds the
registry mapping to the provider's `identifier_seed` parameter and the
integer index to its `ids_by_type` parameter.  For every identity service
`f`, the rule set minted by a concrete action-1 step is addressed at
`f` of the swapped seed string — the stringified registry, not
`"artificial-rule-set-0"` — and with a reference-valued additive field the
swapped integer argument makes the attempt raise a `TypeError` instead of
consulting the registry. -/
theorem standalone_seed_string_swapped (f : String → Ident) :
    (driverElementsList (pC9 f) ["X"] tape1 1).get? 1 =
      some ⟨none, some ⟨"X", f swappedSeedString,
        some [⟨"f1", .other, [.other 1]⟩], none, none⟩⟩ ∧
    swappedSeedString ≠ "artificial-rule-set-0" ∧
    (standalone_rule_set_attempt (pC9crash f) ["X"]
      (.mapping initialRegistry) (.int 0) ⟨tape1, 0⟩).1 =
      .error .typeError :=
  ⟨rfl, by decide, rfl⟩

end MexArtificial
